import Mathlib

/-!
Verification of the Venus AI chat relay core.

This file gives a shallow embedding of the socket chat relay of the
repository: the `chat_message` handler of `handleSocketConnection`, the
socket authenticator `authenticateSocket`, the HTTP middleware
`authenticateToken`, the `activeConnections` registry, and the mongoose
`Chat` model: its pre-save statistics hook (`chatSchema.pre("save")`), the
schema validators on `title` and message `content`, and the strict-mode
casting of pushed message subdocuments.

Modelling conventions:
  - Timestamps (`new Date()`) are modelled as a `Nat` tick passed in as `now`.
  - Mongo object ids are modelled as `Nat`; the store assigns fresh ids from
    a counter.  The inbound chat id is either the literal sentinel string
    `"default"` (constructor `sentinel`) or a concrete id.
  - The inbound `message` field is `Option String`: an absent field behaves
    like the empty string wherever the source guards it (`!message`,
    `(message || "").trim()`), but the unguarded `message.trim()` of the
    title rewrite throws a TypeError on an absent field, which the model
    makes explicit.
  - The upstream axios call is modelled by its normalized outcome
    (`UpstreamResult`): the awaited promise either fulfils with a response
    body or rejects (network error, non-2xx status, or timeout).
  - `chat.save()` is fallible: mongoose runs the schema validators first
    (title required and at most 200 units, message content required and at
    most 10000 units) and rejects on a violation, in which case nothing is
    persisted and the statistics hook does not run; the throw travels to
    the enclosing catch block exactly as in the source.  Storage-layer
    failures of a valid document are outside the model (the spec treats
    durable storage as an external collaborator).
  - Pushing onto `chat.messages` casts the pushed object to the message
    schema (strict mode): schema paths get the value or their default, and
    keys without a schema path (`metadata.usage`, `metadata.errorType`) are
    dropped; `metadata.error` is a String path, so the boolean `true` is
    cast to the string `"true"`.  The events emitted to the client carry
    the original (uncast) objects, exactly as the source emits the local
    constants.
-/

namespace VenusAI

/-- Whitespace trimmed by JS `String.prototype.trim` (restricted to the
ASCII whitespace characters; the Unicode space classes JS also trims do
not occur in the modelled data). -/
def jsWhitespace (c : Char) : Bool :=
  c == ' ' || c == '\t' || c == '\n' || c == '\r' || c == '\x0b' || c == '\x0c'

/-- JS `String.prototype.trim`: drop leading and trailing whitespace. -/
def jsTrim (s : String) : String :=
  String.mk (((s.data.dropWhile jsWhitespace).reverse.dropWhile jsWhitespace).reverse)

/-- JS `String.prototype.length` (UTF-16 units; equal to the character
count on the data in scope). -/
def jsLength (s : String) : Nat :=
  s.data.length

/-- JS `String.prototype.substring(0, n)`. -/
def jsTake (s : String) (n : Nat) : String :=
  String.mk (s.data.take n)

/-- Replace the first occurrence of `pat` in a character list. -/
def replaceFirstList (pat repl : List Char) : List Char → List Char
  | [] => []
  | c :: cs =>
    if pat.isPrefixOf (c :: cs) then repl ++ (c :: cs).drop pat.length
    else c :: replaceFirstList pat repl cs

/-- JS `String.prototype.replace(pat, repl)` with a string pattern replaces
only the first occurrence.  Used by the socket authenticator for
`authorization.replace("Bearer ", "")`. -/
def replaceFirst (s pat repl : String) : String :=
  String.mk (replaceFirstList pat.data repl.data s.data)

/-- A literal decimal number (`mantissa * 10 ^ (- exponent)`), used to
carry the sampling temperature `0.7` without computing with it. -/
structure Decimal where
  mantissa : Nat
  exponent : Nat
deriving DecidableEq

/-- Attachment value carried on an inbound message.  Only the fields the
handler reads are modelled: `filename` and the optional `textExcerpt`.
`textExcerpt` may be absent or null (`none`) or any string, including the
empty string: the repository's upload route produces an empty excerpt for
whitespace-only extracted text (`excerpt()` returns `clean.slice(0, max)`
after collapsing whitespace). -/
structure Attachment where
  filename : String
  textExcerpt : Option String
deriving DecidableEq

/-- Message roles: the `messageSchema` enum is closed over
`"user" | "assistant" | "system"`. -/
inductive Role where
  | user
  | assistant
  | system
deriving DecidableEq

/-- The `usage` object returned by the AI service
(`aiResponse.data.usage`); the handler reads `total_tokens`. -/
structure Usage where
  total_tokens : Nat
deriving DecidableEq

/-- The `metadata.tokens` breakdown declared by `messageSchema`
(`prompt`, `completion`, `total`). -/
structure TokenCounts where
  prompt : Nat
  completion : Nat
  total : Nat
deriving DecidableEq

/-- Message metadata as the handler writes it, at the plain JS object
level (this is what the emitted events carry).  The success path writes
`{ model, usage }`; the error path writes
`{ error: true, errorType: "ai_service_error" }`; neither path writes the
schema field `tokens`. -/
structure Metadata where
  model : Option String
  usage : Option Usage
  tokens : Option TokenCounts
  error : Bool
  errorType : Option String
deriving DecidableEq

/-- One message object as the handler builds it and as the events emit it.
The user message carries no `metadata` field at all, hence `Option`. -/
structure Message where
  role : Role
  content : String
  attachments : List Attachment
  timestamp : Nat
  metadata : Option Metadata
deriving DecidableEq

/-- Metadata as persisted by the message schema (server-temp.js lines
384-402): exactly the schema paths `model`, `tokens`, `processingTime` and
`error` (a String path, default null).  There is no `errorType` and no
`usage` path. -/
structure StoredMetadata where
  model : String
  tokens : TokenCounts
  processingTime : Nat
  error : Option String
deriving DecidableEq

/-- A message subdocument as held in `chat.messages` after the push cast
it to the schema. -/
structure StoredMessage where
  role : Role
  content : String
  attachments : List Attachment
  timestamp : Nat
  metadata : StoredMetadata
deriving DecidableEq

/-- Strict-mode cast of a metadata object to the schema paths: declared
paths take the given value or their default (`model` defaults to
`"deepseek-r1"`, `tokens` to zeroes, `processingTime` to 0, `error` to
null); the undeclared keys `usage` and `errorType` are dropped; the
boolean `error: true` is cast to the String `"true"`. -/
def castMetadata : Option Metadata → StoredMetadata
  | none =>
    { model := "deepseek-r1", tokens := ⟨0, 0, 0⟩, processingTime := 0, error := none }
  | some md =>
    { model := md.model.getD "deepseek-r1"
    , tokens := md.tokens.getD ⟨0, 0, 0⟩
    , processingTime := 0
    , error := if md.error then some "true" else none }

/-- `chat.messages.push(...)` casts the pushed object to `messageSchema`. -/
def castMessage (m : Message) : StoredMessage :=
  { role := m.role
  , content := m.content
  , attachments := m.attachments
  , timestamp := m.timestamp
  , metadata := castMetadata m.metadata }

/-- `msg.metadata?.tokens?.total || 0` as read by the pre-save hook on the
stored subdocuments. -/
def metaTokensTotal (m : StoredMessage) : Nat :=
  m.metadata.tokens.total

/-- Sum of `metadata.tokens.total` over the stored messages: the value the
pre-save hook assigns to `statistics.totalTokens`. -/
def tokenSum (ms : List StoredMessage) : Nat :=
  (ms.map metaTokensTotal).sum

/-- `chatSchema.statistics`. -/
structure Statistics where
  messageCount : Nat
  totalTokens : Nat
  lastActivity : Nat
deriving DecidableEq

/-- `chatSchema.settings` (the fields the handler uses). -/
structure Settings where
  model : String
  temperature : Decimal
  maxTokens : Nat
  systemPrompt : String
deriving DecidableEq

/-- The settings object the handler passes when constructing a new chat
(lines 223-229 of the socket module). -/
def defaultSettings : Settings :=
  { model := "deepseek/deepseek-r1"
  , temperature := { mantissa := 7, exponent := 1 }
  , maxTokens := 2048
  , systemPrompt := "You are Venus AI, a helpful and intelligent assistant." }

/-- A conversation document (`Chat` model): owner, title, entry list and
aggregate statistics. -/
structure Chat where
  id : Nat
  userId : Nat
  title : String
  settings : Settings
  messages : List StoredMessage
  statistics : Statistics
deriving DecidableEq

/-- The chat document constructed for the `"default"` sentinel
(`new Chat({...})`, lines 220-236): placeholder title, default settings,
empty message list, zeroed statistics. -/
def newChat (uid now id : Nat) : Chat :=
  { id := id
  , userId := uid
  , title := "New Chat"
  , settings := defaultSettings
  , messages := []
  , statistics := { messageCount := 0, totalTokens := 0, lastActivity := now } }

/-- The conversation collection plus a fresh-id counter. -/
structure ChatStore where
  chats : List Chat
  nextId : Nat
deriving DecidableEq

/-- `Chat.findOne({ _id: chatId, userId: socket.user.id })`: the lookup
predicate requires both the id and the owner to match. -/
def findOne (s : ChatStore) (cid uid : Nat) : Option Chat :=
  s.chats.find? (fun c => c.id == cid && c.userId == uid)

/-- Replace or insert a document by id (full-document rewrite on save). -/
def storePut (s : ChatStore) (c : Chat) : ChatStore :=
  { s with chats := c :: s.chats.filter (fun d => d.id != c.id) }

/-- `chatSchema.pre("save")` (server-temp.js lines 537-546): when the
`messages` path was modified, recompute `messageCount` as the list length,
`totalTokens` as the sum of `metadata.tokens.total` over all messages, and
refresh `lastActivity`.  Every save issued by the chat handler happens
right after a push onto `messages`, so the hook fires with
`messagesModified = true` there. -/
def chatPreSave (messagesModified : Bool) (now : Nat) (c : Chat) : Chat :=
  if messagesModified then
    { c with statistics :=
      { messageCount := c.messages.length
      , totalTokens := tokenSum c.messages
      , lastActivity := now } }
  else c

/-- The `title` validators (server-temp.js lines 417-423): required,
hence non-empty, and at most 200 units.  The `trim: true` setter is the
identity on every title the handler assigns (the placeholder, a trimmed
message text, or a trimmed-and-truncated one) and is not modelled. -/
def validTitle (t : String) : Bool :=
  (t != "") && decide (jsLength t ≤ 200)

/-- The message `content` validators (server-temp.js lines 374-378):
required, hence non-empty, and at most 10000 units. -/
def validContent (s : String) : Bool :=
  (s != "") && decide (jsLength s ≤ 10000)

/-- Document validation of a conversation as run by `save()`: the title
validators plus the content validators of every message subdocument.  The
remaining schema constraints (role enum, settings enums and bounds) are
satisfied by construction for every document the handler builds and are
not modelled. -/
def validChat (c : Chat) : Bool :=
  validTitle c.title && c.messages.all (fun m => validContent m.content)

/-- `await chat.save()`: mongoose validates first (validation is the
built-in first pre-save step) and rejects on a validator failure — nothing
is persisted and the statistics hook does not run, the rejection travels
to the enclosing catch block.  On success the pre-save hook recomputes the
statistics and the document is written; the (mutated) in-memory document
is returned since later reads in the handler see the hook's mutations. -/
def saveChat (now : Nat) (s : ChatStore) (c : Chat) : Except Unit (Chat × ChatStore) :=
  if validChat c then
    let c2 := chatPreSave true now c
    Except.ok (c2, storePut s c2)
  else Except.error ()

/-- The formatted block one attachment contributes (lines 258-263).  The
source tests `a.textExcerpt` for truthiness, so a null, absent, or
empty-string excerpt all contribute only the filename tag; the excerpt
line is present exactly when the excerpt is non-null and non-empty. -/
def attachmentBlock (a : Attachment) : String :=
  match a.textExcerpt with
  | some ex =>
    if ex = "" then "\n[Attachment: " ++ a.filename ++ "]"
    else "\n[Attachment: " ++ a.filename ++ "]\n" ++ ex
  | none => "\n[Attachment: " ++ a.filename ++ "]"

/-- `attachmentNotes` (lines 258-264): the blocks are joined with `"\n"`,
which inserts an extra newline between consecutive blocks. -/
def attachmentNotes (as : List Attachment) : String :=
  String.intercalate "\n" (as.map attachmentBlock)

/-- `fullContent` (line 265): `(message || "").trim()` concatenated with
the joined notes, and an outer trim over the whole concatenation. -/
def fullContent (message : Option String) (as : List Attachment) : String :=
  jsTrim (jsTrim (message.getD "") ++ attachmentNotes as)

/-- The content stored on the user entry (line 270):
`fullContent || "(no text, attachments only)"`. -/
def storedContent (message : Option String) (as : List Attachment) : String :=
  let f := fullContent message as
  if f = "" then "(no text, attachments only)" else f

/-- One attachment block as the claim words it: the excerpt line is
present whenever the excerpt is non-null.  Second definition for the
refinement comparison against `attachmentBlock`; it follows the claim
text, not the source (which tests truthiness). -/
def specAttachmentBlock (a : Attachment) : String :=
  match a.textExcerpt with
  | some ex => "\n[Attachment: " ++ a.filename ++ "]\n" ++ ex
  | none => "\n[Attachment: " ++ a.filename ++ "]"

/-- Content formula as the claim words it: the trimmed message text
directly concatenated with one block per attachment, with the placeholder
substituted when the concatenation is empty.  Second definition for the
refinement comparison against `storedContent`; it follows the claim text,
not the source. -/
def specStoredContent (message : Option String) (as : List Attachment) : String :=
  let c := jsTrim (message.getD "") ++ String.join (as.map specAttachmentBlock)
  if c = "" then "(no text, attachments only)" else c

/-- The fixed user-facing apology stored on the upstream-failure path
(lines 400-409). -/
def apologyContent : String :=
  "I apologize, but I\x27m currently unable to process your request. Please try again later."

/-- Inbound conversation id: either the `"default"` sentinel or a concrete
id. -/
inductive ChatIdInput where
  | sentinel
  | real (id : Nat)
deriving DecidableEq

/-- The payload of one inbound `chat_message` event:
`{ chatId, message, attachments = [] }`.  `message` is `none` when the
client omitted the field. -/
structure HandlerInput where
  chatId : ChatIdInput
  message : Option String
  attachments : List Attachment
deriving DecidableEq

/-- The user message object built by the handler (lines 268-273): no
metadata field is written.  This is the object the `message_received`
event emits; the pushed copy is cast to the schema. -/
def mkUserMessage (now : Nat) (inp : HandlerInput) : Message :=
  { role := Role.user
  , content := storedContent inp.message inp.attachments
  , attachments := inp.attachments
  , timestamp := now
  , metadata := none }

/-- A successful AI service response body, as the handler reads it:
`choices[0].message.content`, `model`, and the optional `usage`. -/
structure AiSuccess where
  text : String
  model : String
  usage : Option Usage
deriving DecidableEq

/-- Failure classes of the upstream axios call: a timeout abort, a
transport or network error, or a rejection by the upstream service.  The
catch block of the handler receives the failure kind but uses it only in a
log line, so none of these is distinguished downstream. -/
inductive FailKind where
  | timeout
  | transport
  | rejected
deriving DecidableEq

/-- Normalized outcome of the awaited upstream call. -/
inductive UpstreamResult where
  | success (r : AiSuccess)
  | failure (k : FailKind)
deriving DecidableEq

/-- `usage?.total_tokens || 0` (line 354). -/
def usageTotal (u : Option Usage) : Nat :=
  match u with
  | some x => x.total_tokens
  | none => 0

/-- The assistant message object built on the success path (lines
340-348): metadata carries `model` and `usage` and nothing else.  The
emit carries this object; the pushed copy is cast to the schema, which
drops `usage`. -/
def mkAiMessage (now : Nat) (r : AiSuccess) : Message :=
  { role := Role.assistant
  , content := r.text
  , attachments := []
  , timestamp := now
  , metadata := some
      { model := some r.model
      , usage := r.usage
      , tokens := none
      , error := false
      , errorType := none } }

/-- The assistant message object built on the failure path (lines
400-409): the fixed apology, `error: true` and
`errorType: "ai_service_error"`.  The emit carries this object; the
pushed copy is cast to the schema, which drops `errorType` and casts
`error` to the string `"true"`. -/
def mkErrorMessage (now : Nat) : Message :=
  { role := Role.assistant
  , content := apologyContent
  , attachments := []
  , timestamp := now
  , metadata := some
      { model := none
      , usage := none
      , tokens := none
      , error := true
      , errorType := some "ai_service_error" } }

/-- Title truncation (lines 360-363): kept whole up to 50 units, otherwise
the first 47 units followed by the ellipsis marker. -/
def truncatedTitle (t : String) : String :=
  if jsLength t > 50 then jsTake t 47 ++ "..." else t

/-- Title rewrite (lines 358-364): fires only when the entry list has
exactly two entries and the title is still the placeholder.  Line 359
calls `message.trim()` without a guard: when the inbound message field is
absent this throws a TypeError (the `error` outcome), which the enclosing
try diverts to the catch block; otherwise the title is assigned from the
trimmed inbound message text. -/
def rewriteTitle (c : Chat) (message : Option String) : Except Unit Chat :=
  if c.messages.length = 2 ∧ c.title = "New Chat" then
    match message with
    | none => Except.error ()
    | some m => Except.ok { c with title := truncatedTitle (jsTrim m) }
  else Except.ok c

/-- One `{role, content}` pair of the upstream prompt. -/
structure PromptMsg where
  role : Role
  content : String
deriving DecidableEq

/-- Prompt assembly (lines 287-298): map every stored entry to
`{role, content}` and prepend the system instruction exactly when the
conversation holds a single entry at assembly time. -/
def buildPrompt (c : Chat) : List PromptMsg :=
  let base := c.messages.map (fun m => { role := m.role, content := m.content : PromptMsg })
  if c.messages.length = 1 then
    { role := Role.system, content := c.settings.systemPrompt } :: base
  else base

/-- The axios timeout configuration (line 321): two minutes. -/
def upstreamTimeoutMs : Nat := 120000

/-- Shape of the outbound upstream request. -/
structure UpstreamRequest where
  messages : List PromptMsg
  model : String
  temperature : Decimal
  maxTokens : Nat
  timeoutMs : Nat
deriving DecidableEq

/-- The outbound request the handler builds (lines 312-326): the prompt,
the conversation parameters, and the configured timeout. -/
def requestFor (c : Chat) : UpstreamRequest :=
  { messages := buildPrompt c
  , model := c.settings.model
  , temperature := c.settings.temperature
  , maxTokens := c.settings.maxTokens
  , timeoutMs := upstreamTimeoutMs }

/-- A conversation summary as emitted inside the terminal event
(lines 386-391 and 420-425). -/
structure Summary where
  id : Nat
  title : String
  messageCount : Nat
  totalTokens : Nat
deriving DecidableEq

def summaryOf (c : Chat) : Summary :=
  { id := c.id
  , title := c.title
  , messageCount := c.statistics.messageCount
  , totalTokens := c.statistics.totalTokens }

/-- Events emitted to the originating connection.  `message_received` and
`ai_response` carry the original (uncast) message objects, as the source
emits the local constants; `ai_response` additionally carries the real
chat id, the summary, and on the failure path the warning field
(`error: "AI service temporarily unavailable"`). -/
inductive Event where
  | error (message : String)
  | message_received (chatId : ChatIdInput) (message : Message)
  | ai_typing (chatId : ChatIdInput) (typing : Bool)
  | ai_response (chatId : Nat) (message : Message) (chat : Summary) (warning : Option String)
  | connected (userId : Nat) (username : String) (email : String)
deriving DecidableEq

/-- Result of one run of the `chat_message` handler: the events emitted in
order, the resulting store, and the upstream requests issued. -/
structure HandlerResult where
  events : List Event
  store : ChatStore
  upstreamRequests : List UpstreamRequest
deriving DecidableEq

/-- Conversation resolution (lines 214-255): the `"default"` sentinel
always constructs and saves a fresh chat without consulting the
collection (the fresh document always passes validation, so the save
never rejects; the error arm models the outer catch for completeness);
any other id is looked up by `(id, owner)` and a miss is the
`"Chat not found"` rejection. -/
def resolveChat (uid now : Nat) (store : ChatStore) : ChatIdInput → Except String (Chat × ChatStore)
  | ChatIdInput.sentinel =>
    match saveChat now { store with nextId := store.nextId + 1 } (newChat uid now store.nextId) with
    | Except.ok (c2, s2) => Except.ok (c2, s2)
    | Except.error _ => Except.error "Failed to process message"
  | ChatIdInput.real cid =>
    match findOne store cid uid with
    | some c => Except.ok (c, store)
    | none => Except.error "Chat not found"

/-- The document the catch block builds before its save (lines 400-413):
the apology entry pushed (cast to the schema), entry count set to the new
list length, last-activity refreshed, token total untouched. -/
def catchDoc (now : Nat) (c : Chat) : Chat :=
  { c with
    messages := c.messages ++ [castMessage (mkErrorMessage now)]
  , statistics :=
    { messageCount := (c.messages ++ [castMessage (mkErrorMessage now)]).length
    , totalTokens := c.statistics.totalTokens
    , lastActivity := now } }

/-- The catch block `catch (aiError)` (lines 393-428) together with the
outer catch (lines 429-436): emit the typing-off indicator, append the
apology entry, update the statistics, and save.  When the save succeeds,
emit the success-shaped terminal event carrying the (uncast) apology
object and the warning field; when validation rejects the save, the throw
reaches the outer catch, nothing is persisted, and a
`"Failed to process message"` error event is emitted instead — no
terminal event.  `c` is the conversation state at the moment the catch is
entered (it already holds the entries pushed before the throw). -/
def catchPath (now : Nat) (cid : ChatIdInput) (evs : List Event) (store1 : ChatStore)
    (c : Chat) (req : UpstreamRequest) : HandlerResult :=
  match saveChat now store1 (catchDoc now c) with
  | Except.ok (c4, store2) =>
    { events := evs ++ [Event.ai_typing cid false,
        Event.ai_response c4.id (mkErrorMessage now) (summaryOf c4)
          (some "AI service temporarily unavailable")]
    , store := store2, upstreamRequests := [req] }
  | Except.error _ =>
    { events := evs ++ [Event.ai_typing cid false, Event.error "Failed to process message"]
    , store := store1, upstreamRequests := [req] }

/-- The tail of the success branch (lines 357-392): the title rewrite, the
save, and the terminal emit.  A TypeError thrown by the rewrite (absent
message field) or a validation rejection of the save diverts to the catch
block with the conversation state accumulated so far — in those cases a
second typing-off event is emitted there, as in the source.  `evs1`
already ends with the first typing-off (line 337), emitted before the
save. -/
def successPath (now : Nat) (cid : ChatIdInput) (msg : Option String) (evs1 : List Event)
    (store1 : ChatStore) (chat3 : Chat) (aiMsg : Message) (req : UpstreamRequest) : HandlerResult :=
  match rewriteTitle chat3 msg with
  | Except.error _ => catchPath now cid evs1 store1 chat3 req
  | Except.ok c4 =>
    match saveChat now store1 c4 with
    | Except.ok (c5, store2) =>
      { events := evs1 ++ [Event.ai_response c5.id aiMsg (summaryOf c5) none]
      , store := store2, upstreamRequests := [req] }
    | Except.error _ => catchPath now cid evs1 store1 c4 req

/-- The `chat_message` handler (lines 194-437), for one inbound message
and one normalized upstream outcome.  The emission order of the source is
preserved.  The malformed-ObjectId cast rejection (`"Invalid chat ID"`)
is outside the model. -/
def chatMessageHandler (uid now : Nat) (store : ChatStore) (inp : HandlerInput)
    (up : UpstreamResult) : HandlerResult :=
  if jsTrim (inp.message.getD "") = "" ∧ inp.attachments = [] then
    { events := [Event.error "Message or attachments are required"]
    , store := store, upstreamRequests := [] }
  else
    match resolveChat uid now store inp.chatId with
    | Except.error e =>
      { events := [Event.error e], store := store, upstreamRequests := [] }
    | Except.ok (chat, store1) =>
      let userMsg := mkUserMessage now inp
      let chat1 := { chat with messages := chat.messages ++ [castMessage userMsg] }
      let req := requestFor chat1
      let headEvents := [Event.message_received inp.chatId userMsg, Event.ai_typing inp.chatId true]
      match up with
      | UpstreamResult.success r =>
        let aiMsg := mkAiMessage now r
        let chat2 := { chat1 with messages := chat1.messages ++ [castMessage aiMsg] }
        let chat3 := { chat2 with statistics :=
          { messageCount := chat2.messages.length
          , totalTokens := chat2.statistics.totalTokens + usageTotal r.usage
          , lastActivity := now } }
        successPath now inp.chatId inp.message
          (headEvents ++ [Event.ai_typing inp.chatId false]) store1 chat3 aiMsg req
      | UpstreamResult.failure _ =>
        catchPath now inp.chatId headEvents store1 chat1 req

/-- The success-branch document at save time (lines 340-355): both entries
pushed (cast to the schema), the in-handler statistics assignment.  The
handler's `chat3` unfolds to this value. -/
def successDoc3 (now : Nat) (c0 : Chat) (inp : HandlerInput) (r : AiSuccess) : Chat :=
  { c0 with
    messages := (c0.messages ++ [castMessage (mkUserMessage now inp)])
      ++ [castMessage (mkAiMessage now r)]
  , statistics :=
    { messageCount := ((c0.messages ++ [castMessage (mkUserMessage now inp)])
        ++ [castMessage (mkAiMessage now r)]).length
    , totalTokens := c0.statistics.totalTokens + usageTotal r.usage
    , lastActivity := now } }

/-- The document persisted by a failed exchange whose catch-block save
passes validation: user entry and apology entry appended (cast), the
statistics recomputed by the pre-save hook. -/
def failedChat (now : Nat) (c0 : Chat) (inp : HandlerInput) : Chat :=
  chatPreSave true now
    (catchDoc now { c0 with messages := c0.messages ++ [castMessage (mkUserMessage now inp)] })

/-- Recognizer for the terminal `ai_response` event. -/
def isTerminalResponse : Event → Bool
  | Event.ai_response _ _ _ _ => true
  | _ => false

/-- Number of terminal events a handler run emitted. -/
def terminalCount (r : HandlerResult) : Nat :=
  r.events.countP isTerminalResponse

/-- Conversation summaries carried by the terminal events of a run. -/
def responseSummaries (r : HandlerResult) : List Summary :=
  r.events.filterMap (fun e =>
    match e with
    | Event.ai_response _ _ s _ => some s
    | _ => none)

/-- Message objects carried by the terminal events of a run. -/
def responseMessages (r : HandlerResult) : List Message :=
  r.events.filterMap (fun e =>
    match e with
    | Event.ai_response _ m _ _ => some m
    | _ => none)

/-- Warning fields carried by the terminal events of a run. -/
def responseWarnings (r : HandlerResult) : List (Option String) :=
  r.events.filterMap (fun e =>
    match e with
    | Event.ai_response _ _ _ w => some w
    | _ => none)

/-- Extractor for `message_received` payloads from an event list. -/
def receivedOf (es : List Event) : List Message :=
  es.filterMap (fun e =>
    match e with
    | Event.message_received _ m => some m
    | _ => none)

/-- Message objects carried by the `message_received` events of a run. -/
def receivedMessages (r : HandlerResult) : List Message :=
  receivedOf r.events

/-- One `activeConnections` entry: `{ socketId, connectedAt }` (the stored
user object is determined by the key and not needed by the claims). -/
structure ConnInfo where
  socketId : String
  connectedAt : Nat
deriving DecidableEq

/-- The process-wide `activeConnections` map, keyed by
`user.id.toString()`. -/
abbrev Registry := List (String × ConnInfo)

/-- `Map.prototype.set`: overwrite the entry of the key. -/
def regSet (r : Registry) (k : String) (v : ConnInfo) : Registry :=
  (k, v) :: r.filter (fun p => p.1 != k)

/-- `Map.prototype.get`. -/
def regGet (r : Registry) (k : String) : Option ConnInfo :=
  (r.find? (fun p => p.1 == k)).map Prod.snd

/-- `Map.prototype.delete`. -/
def regDelete (r : Registry) (k : String) : Registry :=
  r.filter (fun p => p.1 != k)

/-- Connection registration (lines 173-178):
`activeConnections.set(socket.user.id.toString(), {...})`. -/
def onConnect (r : Registry) (uid : Nat) (sid : String) (now : Nat) : Registry :=
  regSet r (toString uid) { socketId := sid, connectedAt := now }

/-- Disconnect handling (lines 469-476):
`activeConnections.delete(socket.user.id.toString())`.  The identifier of
the disconnecting socket is in scope (`socket.id`) but is not consulted:
removal is keyed solely by the user id. -/
def onDisconnect (r : Registry) (uid : Nat) (_sid : String) : Registry :=
  regDelete r (toString uid)

/-- Outcome of verifying a bearer token (`jwt.verify`): a throw for a
structurally invalid token, a throw for an expired one, or the decoded
`userId`. -/
inductive TokenCheck where
  | invalid
  | expired
  | valid (userId : Nat)
deriving DecidableEq

/-- A user account as the auth layers read it. -/
structure UserAccount where
  uid : Nat
  username : String
  email : String
  isActive : Bool
deriving DecidableEq

/-- The socket handshake: the auth payload token and the Authorization
header. -/
structure Handshake where
  authToken : Option String
  authorizationHeader : Option String
deriving DecidableEq

/-- Token selection of `authenticateSocket` (lines 135-137):
`handshake.auth.token || handshake.headers.authorization?.replace("Bearer ", "")`.
An empty auth payload token is falsy and falls through to the header. -/
def selectToken (h : Handshake) : Option String :=
  let fromHeader := h.authorizationHeader.map (fun s => replaceFirst s "Bearer " "")
  match h.authToken with
  | some t => if t = "" then fromHeader else some t
  | none => fromHeader

/-- `authenticateSocket` (lines 133-155): reject when no token is present,
reject when verification throws, reject when the decoded user id matches
no stored account; otherwise attach the resolved account.  No activity
check is performed on this path. -/
def authenticateSocket (verify : String → TokenCheck) (users : List UserAccount)
    (h : Handshake) : Except String UserAccount :=
  match selectToken h with
  | none => Except.error "Authentication token required"
  | some t =>
    if t = "" then Except.error "Authentication token required"
    else
      match verify t with
      | TokenCheck.valid uid =>
        match users.find? (fun u => u.uid == uid) with
        | some u => Except.ok u
        | none => Except.error "User not found"
      | _ => Except.error "Invalid authentication token"

/-- Connection establishment: the middleware outcome decides whether the
connection is registered and receives the `connected` event (lines
158-191).  A middleware rejection never reaches the registry and receives
no further events. -/
def establishConnection (verify : String → TokenCheck) (users : List UserAccount)
    (h : Handshake) (reg : Registry) (sid : String) (now : Nat) :
    Except String UserAccount × Registry × List Event :=
  match authenticateSocket verify users h with
  | Except.error e => (Except.error e, reg, [])
  | Except.ok u =>
    (Except.ok u, onConnect reg u.uid sid now, [Event.connected u.uid u.username u.email])

/-- `authHeader && authHeader.split(' ')[1]` of the HTTP middleware. -/
def tokenFromHeader (authHeader : Option String) : Option String :=
  authHeader.bind (fun h => ((h.data.splitOn ' ').map String.mk).get? 1)

/-- `authenticateToken` (server-temp.js lines 232-289): the HTTP
middleware.  Unlike the socket path it also rejects accounts with
`isActive` false.  Errors are modelled as the pair of HTTP status and the
`message` field. -/
def authenticateToken (verify : String → TokenCheck) (users : List UserAccount)
    (authHeader : Option String) : Except (Nat × String) UserAccount :=
  match tokenFromHeader authHeader with
  | none => Except.error (401, "No token provided")
  | some t =>
    if t = "" then Except.error (401, "No token provided")
    else
      match verify t with
      | TokenCheck.invalid => Except.error (401, "Invalid token")
      | TokenCheck.expired => Except.error (401, "Token expired")
      | TokenCheck.valid uid =>
        match users.find? (fun u => u.uid == uid) with
        | none => Except.error (401, "Invalid token - user not found")
        | some u =>
          if u.isActive then Except.ok u
          else Except.error (401, "Account is deactivated")

/-- A concrete verifier used by witnesses and counterexamples: one known
token decoding to user id 1. -/
def verifyDemo : String → TokenCheck :=
  fun t => if t = "token-1" then TokenCheck.valid 1 else TokenCheck.invalid

/-! ## Helper lemmas -/

theorem regGet_regDelete (r : Registry) (k : String) : regGet (regDelete r k) k = none := by
  have h : (r.filter (fun p => p.1 != k)).find? (fun p => p.1 == k) = none := by
    simp only [List.find?_eq_none, List.mem_filter, bne_iff_ne, ne_eq, beq_iff_eq]
    intro p hp
    exact hp.2
  simp [regGet, regDelete, h]

theorem findOne_eq_none (s : ChatStore) (cid uid : Nat)
    (h : ∀ c ∈ s.chats, c.id = cid → c.userId ≠ uid) : findOne s cid uid = none := by
  simp only [findOne, List.find?_eq_none, Bool.and_eq_true, beq_iff_eq, not_and]
  intro c hc h1 h2
  exact h c hc h1 h2

theorem usersFind_eq_none (users : List UserAccount) (uid : Nat)
    (h : ∀ u ∈ users, u.uid ≠ uid) : users.find? (fun u => u.uid == uid) = none := by
  simp only [List.find?_eq_none, beq_iff_eq]
  exact h

theorem tokenSum_append (a b : List StoredMessage) :
    tokenSum (a ++ b) = tokenSum a + tokenSum b := by
  simp [tokenSum]

theorem metaTokensTotal_cast_user (now : Nat) (inp : HandlerInput) :
    metaTokensTotal (castMessage (mkUserMessage now inp)) = 0 := rfl

theorem metaTokensTotal_cast_ai (now : Nat) (r : AiSuccess) :
    metaTokensTotal (castMessage (mkAiMessage now r)) = 0 := rfl

theorem metaTokensTotal_cast_err (now : Nat) :
    metaTokensTotal (castMessage (mkErrorMessage now)) = 0 := rfl

theorem storedContent_ne_empty (m : Option String) (as : List Attachment) :
    storedContent m as ≠ "" := by
  unfold storedContent
  by_cases h : fullContent m as = "" <;> simp [h]

theorem validContent_of (s : String) (h1 : s ≠ "") (h2 : jsLength s ≤ 10000) :
    validContent s = true := by
  simp [validContent, h1, h2]

theorem validContent_apology : validContent apologyContent = true := by decide

theorem jsLength_append (s t : String) : jsLength (s ++ t) = jsLength s + jsLength t := by
  cases s with
  | mk a =>
    cases t with
    | mk b =>
      show (a ++ b).length = a.length + b.length
      exact List.length_append a b

theorem ne_empty_of_jsLength_ne_zero (s : String) (h : jsLength s ≠ 0) : s ≠ "" := by
  intro hc
  rw [hc] at h
  exact h rfl

theorem validTitle_truncatedTitle (m : String) (hm : jsTrim m ≠ "") :
    validTitle (truncatedTitle (jsTrim m)) = true := by
  unfold truncatedTitle
  by_cases h50 : jsLength (jsTrim m) > 50
  · rw [if_pos h50]
    have hlen : jsLength (jsTake (jsTrim m) 47 ++ "...") = min 47 (jsLength (jsTrim m)) + 3 := by
      rw [jsLength_append]
      congr 1
      simp [jsLength, jsTake, List.length_take]
    have hne : jsTake (jsTrim m) 47 ++ "..." ≠ "" := by
      apply ne_empty_of_jsLength_ne_zero
      rw [hlen]
      omega
    have h200 : jsLength (jsTake (jsTrim m) 47 ++ "...") ≤ 200 := by
      rw [hlen]
      omega
    simp [validTitle, hne, h200]
  · rw [if_neg h50]
    have h200 : jsLength (jsTrim m) ≤ 200 := by omega
    simp [validTitle, hm, h200]

theorem validChat_catchDoc (now : Nat) (c : Chat) :
    validChat (catchDoc now c)
      = (validTitle c.title
          && (c.messages.all (fun m => validContent m.content) && validContent apologyContent)) := by
  simp [validChat, catchDoc, List.all_append, List.all_cons, castMessage, mkErrorMessage]

theorem catchPath_save_ok (now : Nat) (cid : ChatIdInput) (evs : List Event)
    (store1 : ChatStore) (c : Chat) (req : UpstreamRequest)
    (h : validChat (catchDoc now c) = true) :
    catchPath now cid evs store1 c req
      = { events := evs ++ [Event.ai_typing cid false,
            Event.ai_response (chatPreSave true now (catchDoc now c)).id (mkErrorMessage now)
              (summaryOf (chatPreSave true now (catchDoc now c)))
              (some "AI service temporarily unavailable")]
        , store := storePut store1 (chatPreSave true now (catchDoc now c))
        , upstreamRequests := [req] } := by
  unfold catchPath saveChat
  rw [if_pos h]

theorem catchPath_save_err (now : Nat) (cid : ChatIdInput) (evs : List Event)
    (store1 : ChatStore) (c : Chat) (req : UpstreamRequest)
    (h : validChat (catchDoc now c) = false) :
    catchPath now cid evs store1 c req
      = { events := evs ++ [Event.ai_typing cid false, Event.error "Failed to process message"]
        , store := store1, upstreamRequests := [req] } := by
  unfold catchPath saveChat
  rw [if_neg (by simp [h])]

theorem successPath_title_err (now : Nat) (cid : ChatIdInput) (msg : Option String)
    (evs1 : List Event) (store1 : ChatStore) (chat3 : Chat) (aiMsg : Message)
    (req : UpstreamRequest) (h : rewriteTitle chat3 msg = Except.error ()) :
    successPath now cid msg evs1 store1 chat3 aiMsg req
      = catchPath now cid evs1 store1 chat3 req := by
  unfold successPath
  rw [h]

theorem successPath_save_ok (now : Nat) (cid : ChatIdInput) (msg : Option String)
    (evs1 : List Event) (store1 : ChatStore) (chat3 : Chat) (aiMsg : Message)
    (req : UpstreamRequest) (c4 : Chat)
    (h1 : rewriteTitle chat3 msg = Except.ok c4) (h2 : validChat c4 = true) :
    successPath now cid msg evs1 store1 chat3 aiMsg req
      = { events := evs1 ++ [Event.ai_response (chatPreSave true now c4).id aiMsg
            (summaryOf (chatPreSave true now c4)) none]
        , store := storePut store1 (chatPreSave true now c4)
        , upstreamRequests := [req] } := by
  simp only [successPath, h1]
  simp [saveChat, h2]

theorem successPath_save_err (now : Nat) (cid : ChatIdInput) (msg : Option String)
    (evs1 : List Event) (store1 : ChatStore) (chat3 : Chat) (aiMsg : Message)
    (req : UpstreamRequest) (c4 : Chat)
    (h1 : rewriteTitle chat3 msg = Except.ok c4) (h2 : validChat c4 = false) :
    successPath now cid msg evs1 store1 chat3 aiMsg req
      = catchPath now cid evs1 store1 c4 req := by
  simp only [successPath, h1]
  simp [saveChat, h2]

theorem handler_failure_eq (uid now : Nat) (store : ChatStore) (inp : HandlerInput)
    (k : FailKind) (c0 : Chat) (store1 : ChatStore)
    (hval : ¬(jsTrim (inp.message.getD "") = "" ∧ inp.attachments = []))
    (hres : resolveChat uid now store inp.chatId = Except.ok (c0, store1)) :
    chatMessageHandler uid now store inp (UpstreamResult.failure k)
      = catchPath now inp.chatId
          [Event.message_received inp.chatId (mkUserMessage now inp),
           Event.ai_typing inp.chatId true]
          store1 { c0 with messages := c0.messages ++ [castMessage (mkUserMessage now inp)] }
          (requestFor { c0 with messages := c0.messages ++ [castMessage (mkUserMessage now inp)] }) := by
  unfold chatMessageHandler
  rw [if_neg hval, hres]

theorem handler_success_eq (uid now : Nat) (store : ChatStore) (inp : HandlerInput)
    (r : AiSuccess) (c0 : Chat) (store1 : ChatStore)
    (hval : ¬(jsTrim (inp.message.getD "") = "" ∧ inp.attachments = []))
    (hres : resolveChat uid now store inp.chatId = Except.ok (c0, store1)) :
    chatMessageHandler uid now store inp (UpstreamResult.success r)
      = successPath now inp.chatId inp.message
          [Event.message_received inp.chatId (mkUserMessage now inp),
           Event.ai_typing inp.chatId true, Event.ai_typing inp.chatId false]
          store1 (successDoc3 now c0 inp r) (mkAiMessage now r)
          (requestFor { c0 with messages := c0.messages ++ [castMessage (mkUserMessage now inp)] }) := by
  unfold chatMessageHandler
  rw [if_neg hval, hres]
  rfl

theorem terminalCount_catchPath (now : Nat) (cid : ChatIdInput) (evs : List Event)
    (store1 : ChatStore) (c : Chat) (req : UpstreamRequest) :
    terminalCount (catchPath now cid evs store1 c req)
      = evs.countP isTerminalResponse
          + (if validChat (catchDoc now c) = true then 1 else 0) := by
  cases hb : validChat (catchDoc now c) with
  | false =>
    rw [catchPath_save_err now cid evs store1 c req hb]
    simp [terminalCount, List.countP_append, List.countP_cons, isTerminalResponse]
  | true =>
    rw [catchPath_save_ok now cid evs store1 c req hb]
    simp [terminalCount, List.countP_append, List.countP_cons, isTerminalResponse]

theorem terminalCount_successPath_le (now : Nat) (cid : ChatIdInput) (msg : Option String)
    (evs1 : List Event) (store1 : ChatStore) (chat3 : Chat) (aiMsg : Message)
    (req : UpstreamRequest) :
    terminalCount (successPath now cid msg evs1 store1 chat3 aiMsg req)
      ≤ evs1.countP isTerminalResponse + 1 := by
  cases ht : rewriteTitle chat3 msg with
  | error e =>
    cases e
    rw [successPath_title_err now cid msg evs1 store1 chat3 aiMsg req ht,
      terminalCount_catchPath]
    split <;> omega
  | ok c4 =>
    cases hb : validChat c4 with
    | false =>
      rw [successPath_save_err now cid msg evs1 store1 chat3 aiMsg req c4 ht hb,
        terminalCount_catchPath]
      split <;> omega
    | true =>
      rw [successPath_save_ok now cid msg evs1 store1 chat3 aiMsg req c4 ht hb]
      simp [terminalCount, List.countP_append, List.countP_cons, isTerminalResponse]

theorem terminalCount_le_one (uid now : Nat) (store : ChatStore) (inp : HandlerInput)
    (up : UpstreamResult) :
    terminalCount (chatMessageHandler uid now store inp up) ≤ 1 := by
  by_cases hb : (jsTrim (inp.message.getD "") = "" ∧ inp.attachments = [])
  · unfold chatMessageHandler
    rw [if_pos hb]
    simp [terminalCount, List.countP_cons, isTerminalResponse]
  · cases hres : resolveChat uid now store inp.chatId with
    | error e =>
      unfold chatMessageHandler
      rw [if_neg hb, hres]
      simp [terminalCount, List.countP_cons, isTerminalResponse]
    | ok p =>
      obtain ⟨c0, store1⟩ := p
      cases up with
      | failure k =>
        rw [handler_failure_eq uid now store inp k c0 store1 hb hres,
          terminalCount_catchPath]
        have : ([Event.message_received inp.chatId (mkUserMessage now inp),
            Event.ai_typing inp.chatId true]).countP isTerminalResponse = 0 := by
          simp [List.countP_cons, isTerminalResponse]
        rw [this]
        split <;> omega
      | success r =>
        rw [handler_success_eq uid now store inp r c0 store1 hb hres]
        have h := terminalCount_successPath_le now inp.chatId inp.message
          [Event.message_received inp.chatId (mkUserMessage now inp),
           Event.ai_typing inp.chatId true, Event.ai_typing inp.chatId false]
          store1 (successDoc3 now c0 inp r) (mkAiMessage now r)
          (requestFor { c0 with messages := c0.messages ++ [castMessage (mkUserMessage now inp)] })
        have h0 : ([Event.message_received inp.chatId (mkUserMessage now inp),
            Event.ai_typing inp.chatId true,
            Event.ai_typing inp.chatId false]).countP isTerminalResponse = 0 := by
          simp [List.countP_cons, isTerminalResponse]
        omega

theorem receivedOf_catchPath (now : Nat) (cid : ChatIdInput) (evs : List Event)
    (store1 : ChatStore) (c : Chat) (req : UpstreamRequest) :
    receivedMessages (catchPath now cid evs store1 c req) = receivedOf evs := by
  cases hb : validChat (catchDoc now c) with
  | false =>
    rw [catchPath_save_err now cid evs store1 c req hb]
    simp [receivedMessages, receivedOf, List.filterMap_append]
  | true =>
    rw [catchPath_save_ok now cid evs store1 c req hb]
    simp [receivedMessages, receivedOf, List.filterMap_append]

theorem receivedOf_successPath (now : Nat) (cid : ChatIdInput) (msg : Option String)
    (evs1 : List Event) (store1 : ChatStore) (chat3 : Chat) (aiMsg : Message)
    (req : UpstreamRequest) :
    receivedMessages (successPath now cid msg evs1 store1 chat3 aiMsg req)
      = receivedOf evs1 := by
  cases ht : rewriteTitle chat3 msg with
  | error e =>
    cases e
    rw [successPath_title_err now cid msg evs1 store1 chat3 aiMsg req ht]
    exact receivedOf_catchPath now cid evs1 store1 chat3 req
  | ok c4 =>
    cases hb : validChat c4 with
    | false =>
      rw [successPath_save_err now cid msg evs1 store1 chat3 aiMsg req c4 ht hb]
      exact receivedOf_catchPath now cid evs1 store1 c4 req
    | true =>
      rw [successPath_save_ok now cid msg evs1 store1 chat3 aiMsg req c4 ht hb]
      simp [receivedMessages, receivedOf, List.filterMap_append]

theorem upstreamRequests_catchPath (now : Nat) (cid : ChatIdInput) (evs : List Event)
    (store1 : ChatStore) (c : Chat) (req : UpstreamRequest) :
    (catchPath now cid evs store1 c req).upstreamRequests = [req] := by
  unfold catchPath
  cases saveChat now store1 (catchDoc now c) with
  | ok p => rfl
  | error e => rfl

theorem upstreamRequests_successPath (now : Nat) (cid : ChatIdInput) (msg : Option String)
    (evs1 : List Event) (store1 : ChatStore) (chat3 : Chat) (aiMsg : Message)
    (req : UpstreamRequest) :
    (successPath now cid msg evs1 store1 chat3 aiMsg req).upstreamRequests = [req] := by
  cases ht : rewriteTitle chat3 msg with
  | error e =>
    cases e
    rw [successPath_title_err now cid msg evs1 store1 chat3 aiMsg req ht]
    exact upstreamRequests_catchPath now cid evs1 store1 chat3 req
  | ok c4 =>
    cases hb : validChat c4 with
    | false =>
      rw [successPath_save_err now cid msg evs1 store1 chat3 aiMsg req c4 ht hb]
      exact upstreamRequests_catchPath now cid evs1 store1 c4 req
    | true =>
      rw [successPath_save_ok now cid msg evs1 store1 chat3 aiMsg req c4 ht hb]

theorem failedChat_id (now : Nat) (c0 : Chat) (inp : HandlerInput) :
    (failedChat now c0 inp).id = c0.id := by
  simp [failedChat, chatPreSave, catchDoc]

theorem failedChat_title (now : Nat) (c0 : Chat) (inp : HandlerInput) :
    (failedChat now c0 inp).title = c0.title := by
  simp [failedChat, chatPreSave, catchDoc]

theorem failedChat_messages (now : Nat) (c0 : Chat) (inp : HandlerInput) :
    (failedChat now c0 inp).messages
      = c0.messages ++ [castMessage (mkUserMessage now inp), castMessage (mkErrorMessage now)] := by
  simp [failedChat, chatPreSave, catchDoc]

theorem failedChat_statistics (now : Nat) (c0 : Chat) (inp : HandlerInput) :
    (failedChat now c0 inp).statistics
      = { messageCount := c0.messages.length + 2
        , totalTokens := tokenSum c0.messages
        , lastActivity := now } := by
  simp [failedChat, chatPreSave, catchDoc, tokenSum_append]
  simp [tokenSum, metaTokensTotal, castMessage, castMetadata, mkUserMessage, mkErrorMessage]

/-! ## Claim theorems -/

/-- Claim C1 counterexample: an attachments-only message (empty text, as
the shipped frontend sends) on a fresh conversation with a successful
upstream call is inside the claim's hypothesis, yet the handler emits ZERO
terminal response events: the title rewrite writes the empty title, both
saves fail the schema's required-title validator, and the run ends in the
outer catch with only an error event. -/
theorem C1_counterexample :
    terminalCount (chatMessageHandler 1 5 ⟨[], 0⟩
        ⟨ChatIdInput.sentinel, some "", [⟨"notes.txt", some "hello"⟩]⟩
        (UpstreamResult.success ⟨"Hi!", "m", none⟩)) = 0
    ∧ (chatMessageHandler 1 5 ⟨[], 0⟩
        ⟨ChatIdInput.sentinel, some "", [⟨"notes.txt", some "hello"⟩]⟩
        (UpstreamResult.success ⟨"Hi!", "m", none⟩)).events.getLast?
      = some (Event.error "Failed to process message") := by
  refine ⟨by decide, by decide⟩

/-- Claim C1 as amended: the handler emits at most one terminal response
event per exchange — never two, on any input whatsoever — and exactly one
whenever the documents the exchange writes pass the schema validators
(stated for both settled outcomes: the failure path whenever its
catch-block document validates, the success path whenever the title step
does not throw and the rewritten document validates).  When a save fails
validation, zero terminal responses are emitted and the failure surfaces
as an error event (see the counterexample). -/
theorem C1_terminal_events (uid now : Nat) (store : ChatStore) (inp : HandlerInput)
    (k : FailKind) (r : AiSuccess) (c0 : Chat) (store1 : ChatStore) (c4 : Chat)
    (hval : ¬(jsTrim (inp.message.getD "") = "" ∧ inp.attachments = []))
    (hres : resolveChat uid now store inp.chatId = Except.ok (c0, store1)) :
    (∀ (uid2 now2 : Nat) (store2 : ChatStore) (inp2 : HandlerInput) (up2 : UpstreamResult),
        terminalCount (chatMessageHandler uid2 now2 store2 inp2 up2) ≤ 1)
    ∧ (validChat (catchDoc now
          { c0 with messages := c0.messages ++ [castMessage (mkUserMessage now inp)] }) = true →
        terminalCount (chatMessageHandler uid now store inp (UpstreamResult.failure k)) = 1)
    ∧ (rewriteTitle (successDoc3 now c0 inp r) inp.message = Except.ok c4 →
        validChat c4 = true →
        terminalCount (chatMessageHandler uid now store inp (UpstreamResult.success r)) = 1) := by
  refine ⟨fun uid2 now2 store2 inp2 up2 => terminalCount_le_one uid2 now2 store2 inp2 up2, ?_, ?_⟩
  · intro hfv
    rw [handler_failure_eq uid now store inp k c0 store1 hval hres, terminalCount_catchPath]
    simp [hfv, List.countP_cons, isTerminalResponse]
  · intro htitle hvalid
    rw [handler_success_eq uid now store inp r c0 store1 hval hres,
      successPath_save_ok now inp.chatId inp.message _ store1 (successDoc3 now c0 inp r)
        (mkAiMessage now r) _ c4 htitle hvalid]
    simp [terminalCount, List.countP_append, List.countP_cons, isTerminalResponse]

/-- Witness for C1 at a concrete valid input. -/
theorem C1_witness :
    terminalCount (chatMessageHandler 1 5 ⟨[], 0⟩ ⟨ChatIdInput.sentinel, some "Hi", []⟩
      (UpstreamResult.success ⟨"Hello!", "m", some ⟨10⟩⟩)) = 1 :=
  (C1_terminal_events 1 5 ⟨[], 0⟩ ⟨ChatIdInput.sentinel, some "Hi", []⟩
      FailKind.timeout ⟨"Hello!", "m", some ⟨10⟩⟩ _ _ _ (by decide) rfl).2.2 rfl (by decide)

/-- Claim C2 (code bug witness): a fresh conversation, message `"Hi"`, and
an upstream success whose usage reports 10 total tokens.  The handler
increments `statistics.totalTokens` by 10 (line 354), but `chat.save()`
fires the pre-save hook, which recomputes `totalTokens` from
`metadata.tokens.total` of the stored messages — a path the handler never
writes (it stores the usage under `metadata.usage`, which the schema cast
drops) — so both the persisted document and the emitted conversation
summary carry `totalTokens = 0`, not 10. -/
theorem C2_token_total_dropped :
    responseSummaries (chatMessageHandler 1 5 ⟨[], 0⟩ ⟨ChatIdInput.sentinel, some "Hi", []⟩
        (UpstreamResult.success ⟨"Hello!", "m", some ⟨10⟩⟩))
      = [{ id := 0, title := "Hi", messageCount := 2, totalTokens := 0 }]
    ∧ (findOne (chatMessageHandler 1 5 ⟨[], 0⟩ ⟨ChatIdInput.sentinel, some "Hi", []⟩
          (UpstreamResult.success ⟨"Hello!", "m", some ⟨10⟩⟩)).store 0 1).map
        (fun c => c.statistics.totalTokens) = some 0 := by
  refine ⟨by decide, by decide⟩

theorem dropWhile_replicate_a (n : Nat) :
    (List.replicate n 'a').dropWhile jsWhitespace = List.replicate n 'a' := by
  cases n with
  | zero => rfl
  | succ m =>
    rw [List.replicate_succ, List.dropWhile_cons]
    have h : jsWhitespace 'a' = false := rfl
    rw [h]
    simp [List.replicate_succ]

theorem jsTrim_replicate_a (n : Nat) :
    jsTrim (String.mk (List.replicate n 'a')) = String.mk (List.replicate n 'a') := by
  show String.mk (((List.replicate n 'a').dropWhile jsWhitespace).reverse.dropWhile
    jsWhitespace).reverse = _
  rw [dropWhile_replicate_a, List.reverse_replicate, dropWhile_replicate_a,
    List.reverse_replicate]

theorem jsLength_replicate_a (n : Nat) :
    jsLength (String.mk (List.replicate n 'a')) = n := by
  simp [jsLength, List.length_replicate]

theorem replicate_a_ne_empty (n : Nat) (h : n ≠ 0) :
    String.mk (List.replicate n 'a') ≠ "" := by
  intro hc
  have hlen := jsLength_replicate_a n
  rw [hc] at hlen
  have : jsLength ("" : String) = 0 := rfl
  omega

theorem storedContent_replicate_a (n : Nat) (h : n ≠ 0) :
    storedContent (some (String.mk (List.replicate n 'a'))) []
      = String.mk (List.replicate n 'a') := by
  have hfull : fullContent (some (String.mk (List.replicate n 'a'))) []
      = String.mk (List.replicate n 'a') := by
    unfold fullContent
    rw [show (some (String.mk (List.replicate n 'a'))).getD "" = String.mk (List.replicate n 'a')
      from rfl]
    rw [show attachmentNotes [] = "" from rfl]
    rw [jsTrim_replicate_a, String.append_empty, jsTrim_replicate_a]
  unfold storedContent
  rw [hfull, if_neg (replicate_a_ne_empty n h)]

/-- Claim C3 counterexample: a user message of 10001 characters with an
upstream failure is inside the claim's hypothesis, yet persistence and
emission do NOT complete: the catch-block save fails the content
maxlength validator, the throw reaches the outer catch, nothing of the
exchange is persisted (the fresh conversation still holds zero entries),
and zero terminal response events are emitted — only an error event. -/
theorem C3_counterexample :
    terminalCount (chatMessageHandler 1 5 ⟨[], 0⟩
        ⟨ChatIdInput.sentinel, some (String.mk (List.replicate 10001 'a')), []⟩
        (UpstreamResult.failure FailKind.timeout)) = 0
    ∧ (findOne (chatMessageHandler 1 5 ⟨[], 0⟩
          ⟨ChatIdInput.sentinel, some (String.mk (List.replicate 10001 'a')), []⟩
          (UpstreamResult.failure FailKind.timeout)).store 0 1).map
        (fun c => c.messages.length) = some 0
    ∧ (chatMessageHandler 1 5 ⟨[], 0⟩
          ⟨ChatIdInput.sentinel, some (String.mk (List.replicate 10001 'a')), []⟩
          (UpstreamResult.failure FailKind.timeout)).events.getLast?
        = some (Event.error "Failed to process message") := by
  have hcontent : validContent (String.mk (List.replicate 10001 'a')) = false := by
    unfold validContent
    rw [jsLength_replicate_a]
    rw [show (decide (10001 ≤ 10000)) = false from rfl]
    simp
  have hstored := storedContent_replicate_a 10001 (by omega)
  have hvalfail : validChat (catchDoc 5
      { id := 0, userId := 1, title := "New Chat", settings := defaultSettings
      , messages := [castMessage (mkUserMessage 5
          ⟨ChatIdInput.sentinel, some (String.mk (List.replicate 10001 'a')), []⟩)]
      , statistics := { messageCount := 0, totalTokens := 0, lastActivity := 5 } }) = false := by
    rw [validChat_catchDoc]
    simp only [List.all_cons, List.all_nil, castMessage, mkUserMessage]
    rw [hstored, hcontent]
    simp
  have hval : ¬(jsTrim ((some (String.mk (List.replicate 10001 'a'))).getD "") = ""
      ∧ ([] : List Attachment) = []) := by
    intro hc
    apply replicate_a_ne_empty 10001 (by omega)
    have h1 := hc.1
    rw [show (some (String.mk (List.replicate 10001 'a'))).getD ""
        = String.mk (List.replicate 10001 'a') from rfl, jsTrim_replicate_a] at h1
    exact h1
  have hrun := (handler_failure_eq 1 5 ⟨[], 0⟩
      ⟨ChatIdInput.sentinel, some (String.mk (List.replicate 10001 'a')), []⟩
      FailKind.timeout
      { id := 0, userId := 1, title := "New Chat", settings := defaultSettings
      , messages := [], statistics := { messageCount := 0, totalTokens := 0, lastActivity := 5 } }
      ⟨[{ id := 0, userId := 1, title := "New Chat", settings := defaultSettings
        , messages := [], statistics := { messageCount := 0, totalTokens := 0, lastActivity := 5 } }], 1⟩
      hval rfl).trans
    (catchPath_save_err 5 _ _ _ _ _ hvalfail)
  refine ⟨?_, ?_, ?_⟩
  · rw [hrun]
    simp [terminalCount, List.countP_append, List.countP_cons, isTerminalResponse]
  · rw [hrun]
    rfl
  · rw [hrun]
    rfl

/-- Claim C3 as amended: on every exchange whose upstream call fails (any
failure kind), the handler appends a generated entry carrying the fixed
apology string; the entry object carried by the emitted event still holds
`errorType: "ai_service_error"`, but the persisted subdocument is cast to
the schema, which has no `errorType` path — the persisted metadata marks
the error only as the String `"true"` on the `error` path; statistics are
updated (entry count and last-activity, no token increment); and whenever
the catch-block document passes the schema validators, persistence and the
single success-shaped terminal event with the warning flag complete.  A
validation failure is caught by the outer handler (nothing throws to the
caller), but then nothing is persisted and only an error event is emitted
(see the counterexample). -/
theorem C3_failure_path (uid now : Nat) (store : ChatStore) (inp : HandlerInput) (k : FailKind)
    (c0 : Chat) (store1 : ChatStore)
    (hval : ¬(jsTrim (inp.message.getD "") = "" ∧ inp.attachments = []))
    (hres : resolveChat uid now store inp.chatId = Except.ok (c0, store1))
    (hfv : validChat (catchDoc now
        { c0 with messages := c0.messages ++ [castMessage (mkUserMessage now inp)] }) = true) :
    responseMessages (chatMessageHandler uid now store inp (UpstreamResult.failure k))
        = [mkErrorMessage now]
    ∧ (mkErrorMessage now).content = apologyContent
    ∧ (mkErrorMessage now).metadata
        = some { model := none, usage := none, tokens := none
               , error := true, errorType := some "ai_service_error" }
    ∧ (castMessage (mkErrorMessage now)).metadata
        = { model := "deepseek-r1", tokens := ⟨0, 0, 0⟩, processingTime := 0
          , error := some "true" }
    ∧ responseWarnings (chatMessageHandler uid now store inp (UpstreamResult.failure k))
        = [some "AI service temporarily unavailable"]
    ∧ (chatMessageHandler uid now store inp (UpstreamResult.failure k)).store
        = storePut store1 (failedChat now c0 inp)
    ∧ (failedChat now c0 inp).messages.getLast? = some (castMessage (mkErrorMessage now))
    ∧ (failedChat now c0 inp).statistics.messageCount = (failedChat now c0 inp).messages.length
    ∧ (failedChat now c0 inp).statistics.lastActivity = now
    ∧ (failedChat now c0 inp).statistics.totalTokens = tokenSum c0.messages
    ∧ terminalCount (chatMessageHandler uid now store inp (UpstreamResult.failure k)) = 1 := by
  have hrun := (handler_failure_eq uid now store inp k c0 store1 hval hres).trans
    (catchPath_save_ok now inp.chatId _ store1 _ _ hfv)
  refine ⟨?_, rfl, rfl, rfl, ?_, ?_, ?_, ?_, ?_, ?_, ?_⟩
  · rw [hrun]
    simp [responseMessages]
  · rw [hrun]
    simp [responseWarnings]
  · rw [hrun]
    rfl
  · rw [failedChat_messages,
      show c0.messages ++ [castMessage (mkUserMessage now inp), castMessage (mkErrorMessage now)]
        = (c0.messages ++ [castMessage (mkUserMessage now inp)])
          ++ [castMessage (mkErrorMessage now)] from by simp,
      List.getLast?_concat]
  · rw [failedChat_statistics, failedChat_messages]
    simp
  · rw [failedChat_statistics]
  · rw [failedChat_statistics]
  · rw [hrun]
    simp [terminalCount, List.countP_append, List.countP_cons, isTerminalResponse]

/-- Witness for C3 at a concrete failed exchange that passes validation. -/
theorem C3_witness :
    responseWarnings (chatMessageHandler 1 5 ⟨[], 0⟩ ⟨ChatIdInput.sentinel, some "Hi", []⟩
      (UpstreamResult.failure FailKind.timeout)) = [some "AI service temporarily unavailable"] :=
  (C3_failure_path 1 5 ⟨[], 0⟩ ⟨ChatIdInput.sentinel, some "Hi", []⟩ FailKind.timeout _ _
    (by decide) rfl (by decide)).2.2.2.2.1

theorem validTitle_newChat : validTitle "New Chat" = true := by decide

/-- Claim C4 counterexample, three divergences at concrete inputs:
(a) a failed first exchange brings a placeholder-titled conversation to
exactly two entries (one user, one generated) with no rewrite;
(b) on a successful first exchange with an attachment, the title is the
trimmed inbound message text, not derived from the stored first entry
content (whose truncation would differ);
(c) an attachments-only first message (empty trimmed text) makes the
rewrite write an empty title, both saves fail validation, and no title is
ever persisted or emitted at all. -/
theorem C4_counterexample :
    ((findOne (chatMessageHandler 1 5 ⟨[], 0⟩ ⟨ChatIdInput.sentinel, some "Hello there", []⟩
        (UpstreamResult.failure FailKind.transport)).store 0 1).map
      (fun c => (c.title, c.messages.length, c.messages.map (fun m => m.role)))
      = some ("New Chat", 2, [Role.user, Role.assistant]))
    ∧ ((responseSummaries (chatMessageHandler 1 5 ⟨[], 0⟩
          ⟨ChatIdInput.sentinel, some "check this please and thanks", [⟨"report.pdf", none⟩]⟩
          (UpstreamResult.success ⟨"ok", "m", none⟩))).map (fun s => s.title)
        = ["check this please and thanks"]
      ∧ (findOne (chatMessageHandler 1 5 ⟨[], 0⟩
            ⟨ChatIdInput.sentinel, some "check this please and thanks", [⟨"report.pdf", none⟩]⟩
            (UpstreamResult.success ⟨"ok", "m", none⟩)).store 0 1).map
          (fun c => c.messages.head?.map (fun msg => msg.content))
        = some (some "check this please and thanks\n[Attachment: report.pdf]")
      ∧ truncatedTitle (jsTrim "check this please and thanks\n[Attachment: report.pdf]")
          ≠ "check this please and thanks")
    ∧ responseSummaries (chatMessageHandler 1 5 ⟨[], 0⟩
        ⟨ChatIdInput.sentinel, some "", [⟨"notes.txt", some "hello"⟩]⟩
        (UpstreamResult.success ⟨"Hi!", "m", none⟩)) = [] := by
  refine ⟨by decide, ⟨by decide, by decide, by decide⟩, by decide⟩

/-- Claim C4 as amended: for a conversation whose title is still the
placeholder, the title is rewritten only by a successfully settled
exchange on the transition to exactly two entries, from the trimmed
inbound message text (which is what the first user entry was built from;
the stored entry content may additionally carry attachment blocks and is
not what the title is taken from) — kept whole when at most 50 units,
otherwise the first 47 units plus an ellipsis marker; a failed exchange
reaching two entries leaves the placeholder; an exchange on a
conversation that already has entries never rewrites the title; and when
the trimmed inbound text is empty the rewrite writes an empty title that
fails the required-title validator, so no title (and nothing else) is
persisted or emitted. -/
theorem C4_title_rewrite (uid now : Nat) (store : ChatStore) (m : String)
    (atts : List Attachment) (r : AiSuccess)
    (hm : jsTrim m ≠ "")
    (hlen : jsLength (storedContent (some m) atts) ≤ 10000)
    (hai : r.text ≠ "" ∧ jsLength r.text ≤ 10000) :
    ((responseSummaries (chatMessageHandler uid now store ⟨ChatIdInput.sentinel, some m, atts⟩
          (UpstreamResult.success r))).map (fun s => s.title)
        = [if jsLength (jsTrim m) > 50 then jsTake (jsTrim m) 47 ++ "..." else jsTrim m])
    ∧ (∀ k, (responseSummaries (chatMessageHandler uid now store
          ⟨ChatIdInput.sentinel, some m, atts⟩
          (UpstreamResult.failure k))).map (fun s => s.title) = ["New Chat"])
    ∧ (∀ cid c0, findOne store cid uid = some c0 → c0.messages ≠ [] → validChat c0 = true →
        ((responseSummaries (chatMessageHandler uid now store ⟨ChatIdInput.real cid, some m, atts⟩
            (UpstreamResult.success r))).map (fun s => s.title) = [c0.title]
        ∧ ∀ k, (responseSummaries (chatMessageHandler uid now store
            ⟨ChatIdInput.real cid, some m, atts⟩
            (UpstreamResult.failure k))).map (fun s => s.title) = [c0.title]))
    ∧ (∀ (store2 : ChatStore) (atts2 : List Attachment) (r2 : AiSuccess), atts2 ≠ [] →
        responseSummaries (chatMessageHandler uid now store2 ⟨ChatIdInput.sentinel, some "", atts2⟩
          (UpstreamResult.success r2)) = []) := by
  have hval : ¬(jsTrim ((some m).getD "") = "" ∧ atts = []) := by
    intro hc
    exact hm hc.1
  have huser : validContent (storedContent (some m) atts) = true :=
    validContent_of _ (storedContent_ne_empty _ _) hlen
  have hainv : validContent r.text = true := validContent_of _ hai.1 hai.2
  refine ⟨?_, ?_, ?_, ?_⟩
  · have ht : rewriteTitle
        (successDoc3 now (chatPreSave true now (newChat uid now store.nextId))
          ⟨ChatIdInput.sentinel, some m, atts⟩ r) (some m)
        = Except.ok { successDoc3 now (chatPreSave true now (newChat uid now store.nextId))
            ⟨ChatIdInput.sentinel, some m, atts⟩ r with title := truncatedTitle (jsTrim m) } := rfl
    have hv4 : validChat { successDoc3 now (chatPreSave true now (newChat uid now store.nextId))
        ⟨ChatIdInput.sentinel, some m, atts⟩ r with title := truncatedTitle (jsTrim m) } = true := by
      simp [validChat, successDoc3, chatPreSave, newChat, List.all_cons, List.all_nil,
        castMessage, mkUserMessage, mkAiMessage, validTitle_truncatedTitle m hm, huser, hainv]
    rw [handler_success_eq uid now store ⟨ChatIdInput.sentinel, some m, atts⟩ r _ _ hval rfl,
      successPath_save_ok _ _ _ _ _ _ _ _ _ ht hv4]
    simp [responseSummaries, summaryOf, chatPreSave, truncatedTitle]
  · intro k
    have hfv : validChat (catchDoc now
        { chatPreSave true now (newChat uid now store.nextId) with
          messages := (chatPreSave true now (newChat uid now store.nextId)).messages
            ++ [castMessage (mkUserMessage now ⟨ChatIdInput.sentinel, some m, atts⟩)] }) = true := by
      rw [validChat_catchDoc]
      simp [chatPreSave, newChat, List.all_cons, List.all_nil, castMessage, mkUserMessage,
        validTitle_newChat, huser, validContent_apology]
    rw [handler_failure_eq uid now store ⟨ChatIdInput.sentinel, some m, atts⟩ k _ _ hval rfl,
      catchPath_save_ok _ _ _ _ _ _ hfv]
    simp [responseSummaries, summaryOf, chatPreSave, catchDoc, newChat]
  · intro cid c0 hfind h0 hc0
    have hres : resolveChat uid now store (ChatIdInput.real cid) = Except.ok (c0, store) := by
      simp [resolveChat, hfind]
    rw [validChat] at hc0
    rw [Bool.and_eq_true] at hc0
    obtain ⟨ht0, hm0⟩ := hc0
    constructor
    · have ht : rewriteTitle (successDoc3 now c0 ⟨ChatIdInput.real cid, some m, atts⟩ r) (some m)
          = Except.ok (successDoc3 now c0 ⟨ChatIdInput.real cid, some m, atts⟩ r) := by
        simp [rewriteTitle, successDoc3, h0]
      have hv : validChat (successDoc3 now c0 ⟨ChatIdInput.real cid, some m, atts⟩ r) = true := by
        simp [validChat, successDoc3, List.all_append, List.all_cons, List.all_nil,
          castMessage, mkUserMessage, mkAiMessage, ht0, hm0, huser, hainv]
      rw [handler_success_eq uid now store ⟨ChatIdInput.real cid, some m, atts⟩ r c0 store hval hres,
        successPath_save_ok _ _ _ _ _ _ _ _ _ ht hv]
      simp [responseSummaries, summaryOf, chatPreSave, successDoc3]
    · intro k
      have hfv : validChat (catchDoc now
          { c0 with messages := c0.messages
              ++ [castMessage (mkUserMessage now ⟨ChatIdInput.real cid, some m, atts⟩)] }) = true := by
        rw [validChat_catchDoc]
        simp [List.all_append, List.all_cons, List.all_nil, castMessage, mkUserMessage,
          ht0, hm0, huser, validContent_apology]
      rw [handler_failure_eq uid now store ⟨ChatIdInput.real cid, some m, atts⟩ k c0 store hval hres,
        catchPath_save_ok _ _ _ _ _ _ hfv]
      simp [responseSummaries, summaryOf, chatPreSave, catchDoc]
  · intro store2 atts2 r2 hne2
    have hval2 : ¬(jsTrim ((some "").getD "") = "" ∧ atts2 = []) := by
      intro hc
      exact hne2 hc.2
    have ht : rewriteTitle
        (successDoc3 now (chatPreSave true now (newChat uid now store2.nextId))
          ⟨ChatIdInput.sentinel, some "", atts2⟩ r2) (some "")
        = Except.ok { successDoc3 now (chatPreSave true now (newChat uid now store2.nextId))
            ⟨ChatIdInput.sentinel, some "", atts2⟩ r2 with title := truncatedTitle (jsTrim "") } := rfl
    have hv4 : validChat { successDoc3 now (chatPreSave true now (newChat uid now store2.nextId))
        ⟨ChatIdInput.sentinel, some "", atts2⟩ r2 with
        title := truncatedTitle (jsTrim "") } = false := by
      simp [validChat, validTitle, truncatedTitle, jsTrim, jsLength]
    have hfv2 : validChat (catchDoc now
        { successDoc3 now (chatPreSave true now (newChat uid now store2.nextId))
            ⟨ChatIdInput.sentinel, some "", atts2⟩ r2 with
          title := truncatedTitle (jsTrim "") }) = false := by
      rw [validChat_catchDoc]
      simp [validTitle, truncatedTitle, jsTrim, jsLength]
    rw [handler_success_eq uid now store2 ⟨ChatIdInput.sentinel, some "", atts2⟩ r2 _ _ hval2 rfl,
      successPath_save_err _ _ _ _ _ _ _ _ _ ht hv4,
      catchPath_save_err _ _ _ _ _ _ hfv2]
    simp [responseSummaries]

/-- Witness for C4 at the 60-character first message of the claim: the
stored title is the first 47 characters plus the ellipsis marker. -/
theorem C4_witness :
    (responseSummaries (chatMessageHandler 1 5 ⟨[], 0⟩
        ⟨ChatIdInput.sentinel, some "012345678901234567890123456789012345678901234567890123456789", []⟩
        (UpstreamResult.success ⟨"Hi!", "m", none⟩))).map (fun s => s.title)
      = ["01234567890123456789012345678901234567890123456..."] :=
  ((C4_title_rewrite 1 5 ⟨[], 0⟩
      "012345678901234567890123456789012345678901234567890123456789" []
      ⟨"Hi!", "m", none⟩ (by decide) (by decide) ⟨by decide, by decide⟩).1).trans (by decide)

/-- Claim C5: the `"default"` sentinel always produces a fresh
conversation determined only by the owner, the clock and the fresh-id
counter (the collection contents are never consulted); any other id is
looked up by the pair (id, owner id), and a missing conversation and a
conversation owned by a different user produce the same `"Chat not
found"` rejection, after which processing stops with no persistence and
no upstream call.  Ownership is enforced only by the lookup predicate. -/
theorem C5_conversation_resolution (uid now cid : Nat) (store : ChatStore) (inp : HandlerInput)
    (hval : ¬(jsTrim (inp.message.getD "") = "" ∧ inp.attachments = []))
    (hcid : inp.chatId = ChatIdInput.real cid)
    (hmiss : ∀ c ∈ store.chats, c.id = cid → c.userId ≠ uid) :
    (∀ s n, (resolveChat uid now ⟨s, n⟩ ChatIdInput.sentinel).toOption.map Prod.fst
        = some (chatPreSave true now (newChat uid now n)))
    ∧ resolveChat uid now store (ChatIdInput.real cid) = Except.error "Chat not found"
    ∧ (∀ up, chatMessageHandler uid now store inp up
        = { events := [Event.error "Chat not found"], store := store, upstreamRequests := [] }) := by
  have hnone : findOne store cid uid = none := findOne_eq_none store cid uid hmiss
  refine ⟨?_, ?_, ?_⟩
  · intro s n
    rfl
  · simp [resolveChat, hnone]
  · intro up
    unfold chatMessageHandler
    rw [if_neg hval, hcid]
    simp [resolveChat, hnone]

/-- Witness for C5: a store holding only a chat with the requested id but
a different owner yields the `"Chat not found"` rejection with no side
effects. -/
theorem C5_witness :
    chatMessageHandler 1 5
        ⟨[{ id := 7, userId := 2, title := "Other", settings := defaultSettings
          , messages := [], statistics := ⟨0, 0, 0⟩ }], 8⟩
        ⟨ChatIdInput.real 7, some "Hi", []⟩ (UpstreamResult.success ⟨"x", "m", none⟩)
      = { events := [Event.error "Chat not found"]
        , store := ⟨[{ id := 7, userId := 2, title := "Other", settings := defaultSettings
                     , messages := [], statistics := ⟨0, 0, 0⟩ }], 8⟩
        , upstreamRequests := [] } :=
  (C5_conversation_resolution 1 5 7
      ⟨[{ id := 7, userId := 2, title := "Other", settings := defaultSettings
        , messages := [], statistics := ⟨0, 0, 0⟩ }], 8⟩
      ⟨ChatIdInput.real 7, some "Hi", []⟩ (by decide) rfl (by decide)).2.2
    (UpstreamResult.success ⟨"x", "m", none⟩)

/-- Claim C6 counterexample, two divergences from the claim's content
formula: (a) with two attachments the code joins the attachment blocks
with a `"\n"` separator, inserting a blank line the claim's plain
concatenation lacks; (b) an attachment whose excerpt field is the empty
string (which the upload route produces for a whitespace-only file)
contributes only the filename tag — the source tests the excerpt for
truthiness — while the claim's formula appends the excerpt line whenever
the field is non-null. -/
theorem C6_counterexample :
    (storedContent (some "t") [⟨"a", none⟩, ⟨"b", none⟩] = "t\n[Attachment: a]\n\n[Attachment: b]"
      ∧ specStoredContent (some "t") [⟨"a", none⟩, ⟨"b", none⟩]
          = "t\n[Attachment: a]\n[Attachment: b]"
      ∧ storedContent (some "t") [⟨"a", none⟩, ⟨"b", none⟩]
          ≠ specStoredContent (some "t") [⟨"a", none⟩, ⟨"b", none⟩])
    ∧ (storedContent (some "t") [⟨"a", some ""⟩] = "t\n[Attachment: a]"
      ∧ specStoredContent (some "t") [⟨"a", some ""⟩] = "t\n[Attachment: a]\n"
      ∧ storedContent (some "t") [⟨"a", some ""⟩]
          ≠ specStoredContent (some "t") [⟨"a", some ""⟩]) := by
  refine ⟨⟨by decide, by decide, by decide⟩, by decide, by decide, by decide⟩

/-- Claim C6 as amended: stored user-entry content is the trimmed message
text concatenated with the attachment blocks joined by a `"\n"` separator
(giving a blank line between consecutive blocks), the whole trimmed of
surrounding whitespace; an attachment contributes its excerpt line exactly
when the excerpt is non-null AND non-empty (the source tests truthiness);
the single-attachment examples of the claim hold verbatim; when the result
is empty the literal placeholder is stored, so stored content is never
empty. -/
theorem C6_stored_content (uid now : Nat) (store : ChatStore) (inp : HandlerInput)
    (up : UpstreamResult) (c0 : Chat) (store1 : ChatStore)
    (hval : ¬(jsTrim (inp.message.getD "") = "" ∧ inp.attachments = []))
    (hres : resolveChat uid now store inp.chatId = Except.ok (c0, store1)) :
    (receivedMessages (chatMessageHandler uid now store inp up)).map (fun msg => msg.content)
        = [storedContent inp.message inp.attachments]
    ∧ storedContent (some "check this") [⟨"report.pdf", some "Q3 revenue up 10%"⟩]
        = "check this\n[Attachment: report.pdf]\nQ3 revenue up 10%"
    ∧ storedContent (some "check this") [⟨"report.pdf", none⟩]
        = "check this\n[Attachment: report.pdf]"
    ∧ storedContent (some "check this") [⟨"report.pdf", some ""⟩]
        = "check this\n[Attachment: report.pdf]"
    ∧ (∀ m2 atts2, storedContent m2 atts2 ≠ "") := by
  refine ⟨?_, by decide, by decide, by decide, fun m2 atts2 => storedContent_ne_empty m2 atts2⟩
  cases up with
  | success r =>
    rw [handler_success_eq uid now store inp r c0 store1 hval hres, receivedOf_successPath]
    simp [receivedOf, mkUserMessage]
  | failure k =>
    rw [handler_failure_eq uid now store inp k c0 store1 hval hres, receivedOf_catchPath]
    simp [receivedOf, mkUserMessage]

/-- Witness for C6 at the claim's own example. -/
theorem C6_witness :
    (receivedMessages (chatMessageHandler 1 5 ⟨[], 0⟩
        ⟨ChatIdInput.sentinel, some "check this", [⟨"report.pdf", some "Q3 revenue up 10%"⟩]⟩
        (UpstreamResult.success ⟨"ok", "m", none⟩))).map (fun msg => msg.content)
      = ["check this\n[Attachment: report.pdf]\nQ3 revenue up 10%"] := by
  have h := C6_stored_content 1 5 ⟨[], 0⟩
    ⟨ChatIdInput.sentinel, some "check this", [⟨"report.pdf", some "Q3 revenue up 10%"⟩]⟩
    (UpstreamResult.success ⟨"ok", "m", none⟩) _ _ (by decide) rfl
  exact h.1.trans (by rw [h.2.1])

/-- Claim C7: an inbound message whose text is empty or whitespace-only
and whose attachment list is empty is rejected with an error event and has
no side effects: the store is unchanged (no conversation created, looked
up, or persisted; nothing appended) and no upstream call is made. -/
theorem C7_empty_rejected (uid now : Nat) (store : ChatStore) (inp : HandlerInput)
    (up : UpstreamResult)
    (hmsg : jsTrim (inp.message.getD "") = "") (hatt : inp.attachments = []) :
    chatMessageHandler uid now store inp up
      = { events := [Event.error "Message or attachments are required"]
        , store := store, upstreamRequests := [] } := by
  unfold chatMessageHandler
  rw [if_pos ⟨hmsg, hatt⟩]

/-- Witness for C7 at a whitespace-only message. -/
theorem C7_witness :
    chatMessageHandler 1 5 ⟨[], 0⟩ ⟨ChatIdInput.sentinel, some "   ", []⟩
        (UpstreamResult.success ⟨"x", "m", none⟩)
      = { events := [Event.error "Message or attachments are required"]
        , store := ⟨[], 0⟩, upstreamRequests := [] } :=
  C7_empty_rejected 1 5 ⟨[], 0⟩ ⟨ChatIdInput.sentinel, some "   ", []⟩
    (UpstreamResult.success ⟨"x", "m", none⟩) (by decide) rfl

/-- Claim C8 counterexample: a structurally valid token resolving to an
existing but deactivated account (`isActive = false`) is accepted by the
socket authenticator — the connection is attached to the resolved identity
and registered — while the HTTP middleware rejects the very same account
with `"Account is deactivated"`.  The claim states such a connection
attempt is rejected; the socket path does not check account activity. -/
theorem C8_counterexample :
    authenticateSocket verifyDemo [⟨1, "bob", "bob@example.com", false⟩] ⟨some "token-1", none⟩
        = Except.ok ⟨1, "bob", "bob@example.com", false⟩
    ∧ (establishConnection verifyDemo [⟨1, "bob", "bob@example.com", false⟩]
        ⟨some "token-1", none⟩ [] "s1" 5).2.1 = [("1", ⟨"s1", 5⟩)]
    ∧ authenticateToken verifyDemo [⟨1, "bob", "bob@example.com", false⟩] (some "Bearer token-1")
        = Except.error (401, "Account is deactivated") := by
  refine ⟨rfl, rfl, rfl⟩

/-- Claim C8 as amended: a connection attempt with no bearer token is
rejected with the `"Authentication token required"` error, never reaches
the registry, and receives no further events; a structurally valid token
resolving to no existing account is likewise rejected (`"User not
found"`).  The active-account check exists only in the HTTP middleware
(`authenticateToken`, which rejects deactivated accounts); the socket
authenticator attaches any existing account regardless of activity. -/
theorem C8_authentication (verify : String → TokenCheck) (users : List UserAccount)
    (h : Handshake) (reg : Registry) (sid : String) (now : Nat) (t : String) (uid : Nat) :
    (selectToken h = none →
      authenticateSocket verify users h = Except.error "Authentication token required"
      ∧ establishConnection verify users h reg sid now
          = (Except.error "Authentication token required", reg, []))
    ∧ (selectToken h = some t → t ≠ "" → verify t = TokenCheck.valid uid →
        (∀ u ∈ users, u.uid ≠ uid) →
        authenticateSocket verify users h = Except.error "User not found"
        ∧ establishConnection verify users h reg sid now
            = (Except.error "User not found", reg, []))
    ∧ (∀ hdr t2 uid2 u, tokenFromHeader hdr = some t2 → t2 ≠ "" →
        verify t2 = TokenCheck.valid uid2 →
        users.find? (fun x => x.uid == uid2) = some u → u.isActive = false →
        authenticateToken verify users hdr = Except.error (401, "Account is deactivated")) := by
  refine ⟨?_, ?_, ?_⟩
  · intro hsel
    have ha : authenticateSocket verify users h = Except.error "Authentication token required" := by
      unfold authenticateSocket
      rw [hsel]
    exact ⟨ha, by unfold establishConnection; rw [ha]⟩
  · intro hsel hne hver hmiss
    have hfind := usersFind_eq_none users uid hmiss
    have ha : authenticateSocket verify users h = Except.error "User not found" := by
      unfold authenticateSocket
      rw [hsel]
      simp [hne, hver, hfind]
    exact ⟨ha, by unfold establishConnection; rw [ha]⟩
  · intro hdr t2 uid2 u h1 h2 h3 h4 h5
    unfold authenticateToken
    rw [h1]
    simp [h2, h3, h4, h5]

/-- Witness for C8 at a concrete tokenless handshake. -/
theorem C8_witness :
    authenticateSocket verifyDemo [] ⟨none, none⟩
      = Except.error "Authentication token required" :=
  ((C8_authentication verifyDemo [] ⟨none, none⟩ [] "s" 0 "" 0).1 rfl).1

/-- Claim C9 counterexample: a timed-out upstream call and a transport
failure produce bit-identical handler outcomes — same events, same stored
conversation, same requests — and the error metadata emitted with the
terminal event carries the single kind `"ai_service_error"` in both cases,
so the timeout reason is not distinguishable from a transport failure
anywhere downstream. -/
theorem C9_counterexample :
    chatMessageHandler 1 5 ⟨[], 0⟩ ⟨ChatIdInput.sentinel, some "Hi", []⟩
        (UpstreamResult.failure FailKind.timeout)
      = chatMessageHandler 1 5 ⟨[], 0⟩ ⟨ChatIdInput.sentinel, some "Hi", []⟩
        (UpstreamResult.failure FailKind.transport)
    ∧ (responseMessages (chatMessageHandler 1 5 ⟨[], 0⟩ ⟨ChatIdInput.sentinel, some "Hi", []⟩
        (UpstreamResult.failure FailKind.timeout))).map (fun msg => msg.metadata)
      = [some { model := none, usage := none, tokens := none
              , error := true, errorType := some "ai_service_error" }] := by
  refine ⟨rfl, by decide⟩

/-- Claim C9 as amended: every dispatched exchange issues exactly one
upstream request (a failure is reported upward and never retried), every
request carries the hard 2-minute (120000 ms) timeout, and a timed-out
call is treated as a Failure handled identically to any other upstream
failure — normalized to the single error kind `"ai_service_error"` with no
distinct timeout reason downstream. -/
theorem C9_upstream_contract (uid now : Nat) (store : ChatStore) (inp : HandlerInput)
    (up : UpstreamResult) (c0 : Chat) (store1 : ChatStore)
    (hval : ¬(jsTrim (inp.message.getD "") = "" ∧ inp.attachments = []))
    (hres : resolveChat uid now store inp.chatId = Except.ok (c0, store1)) :
    (chatMessageHandler uid now store inp up).upstreamRequests.length = 1
    ∧ (∀ q ∈ (chatMessageHandler uid now store inp up).upstreamRequests, q.timeoutMs = 120000)
    ∧ upstreamTimeoutMs = 120000
    ∧ (∀ k k', chatMessageHandler uid now store inp (UpstreamResult.failure k)
        = chatMessageHandler uid now store inp (UpstreamResult.failure k')) := by
  refine ⟨?_, ?_, rfl, fun k k' => rfl⟩
  · cases up with
    | success r =>
      rw [handler_success_eq uid now store inp r c0 store1 hval hres, upstreamRequests_successPath]
      rfl
    | failure k =>
      rw [handler_failure_eq uid now store inp k c0 store1 hval hres, upstreamRequests_catchPath]
      rfl
  · cases up with
    | success r =>
      rw [handler_success_eq uid now store inp r c0 store1 hval hres]
      intro q hq
      rw [upstreamRequests_successPath] at hq
      simp at hq
      subst hq
      rfl
    | failure k =>
      rw [handler_failure_eq uid now store inp k c0 store1 hval hres]
      intro q hq
      rw [upstreamRequests_catchPath] at hq
      simp at hq
      subst hq
      rfl

/-- Witness for C9 at a concrete timed-out exchange. -/
theorem C9_witness :
    (chatMessageHandler 1 5 ⟨[], 0⟩ ⟨ChatIdInput.sentinel, some "Hi", []⟩
      (UpstreamResult.failure FailKind.timeout)).upstreamRequests.length = 1 :=
  (C9_upstream_contract 1 5 ⟨[], 0⟩ ⟨ChatIdInput.sentinel, some "Hi", []⟩
    (UpstreamResult.failure FailKind.timeout) _ _ (by decide) rfl).1

/-- Claim C10: the disconnect handler removes the registry entry keyed
solely by the user identity, ignoring which socket is disconnecting: after
connect then reconnect (which overwrites the entry) then disconnect of the
older socket, the registry reports the user as absent; and the removal is
independent of the disconnecting socket identifier. -/
theorem C10_registry_removal (reg : Registry) (uid : Nat) (s1 s2 : String) (t1 t2 : Nat) :
    regGet (onDisconnect (onConnect (onConnect reg uid s1 t1) uid s2 t2) uid s1) (toString uid)
        = none
    ∧ (∀ r : Registry, ∀ u : Nat, ∀ sa sb : String, onDisconnect r u sa = onDisconnect r u sb) := by
  refine ⟨?_, fun r u sa sb => rfl⟩
  exact regGet_regDelete _ _

end VenusAI
